import Mathlib

/-!
Shallow embedding of the Flask-GPU-cloud allocation core.

The live program is the Flask app assembled in src/app/__init__.py, which
registers the blueprints under src/app/api/ (users, gpu_instances,
gpu_bookings, gpu_usage, queue).  The module src/app/routes.py defines a
second blueprint `bp` with older duplicates of several endpoints, but `bp`
is never imported nor registered, so the definitions below follow the
registered src/app/api/ handlers.

Timestamps are modelled as naturals (the code only compares them and takes
differences).  The database session is modelled as lists in insertion order
plus autoincrement counters; a route handler becomes a function from a
state and its request parameters to `Except ApiErr` of the new state (and
payload where a claim needs it).  `now` is passed explicitly wherever the
handler reads `datetime.utcnow()`.
-/

deriving instance DecidableEq for Except

namespace GpuCloud

/-- Status enum of a GPU instance (src/app/models.py, class GPU_status). -/
inductive GPU_status where
  | available
  | in_use
  | booked
  | maintenance
deriving DecidableEq, Repr

/-- A GPU instance row (src/app/models.py, class GPU_instance).  Of the
telemetry columns only the three read by the usage report are kept. -/
structure GPU_instance where
  id : Nat
  name : String
  gpu_type : String
  gpu_memory : Nat
  status : GPU_status
  utilization_percentage : Option Int
  peak_memory_usage : Option Int
  average_load : Option Int
deriving DecidableEq, Repr

/-- A GPU booking row (src/app/models.py, class GPU_booking).
Modelled from the spec: the is_cancelled / cancelled_at columns and the
soft_delete method are read and called by the routes and declared by the
migration 6824db27c6df, but are missing from src/app/models.py; per the
spec a reservation carries a soft-delete flag plus cancellation timestamp,
with is_cancelled defaulting to false on creation. -/
structure GPU_booking where
  booking_id : Nat
  user_id : Nat
  gpu_id : Nat
  start_time : Nat
  end_time : Nat
  is_cancelled : Bool
  cancelled_at : Option Nat
deriving DecidableEq, Repr

/-- A GPU usage row (src/app/models.py, class GPU_usage). -/
structure GPU_usage where
  usage_id : Nat
  gpu_id : Nat
  booking_id : Nat
  start_time : Nat
  end_time : Option Nat
  usage_duration : Option Nat
deriving DecidableEq, Repr

/-- Status enum of a queue entry, as referenced by src/app/api/queue/routes.py
(PENDING, ALLOCATED, CANCELLED; the class itself is absent from models.py). -/
inductive GPU_queue_status where
  | pending
  | allocated
  | cancelled
deriving DecidableEq, Repr

/-- Modelled from the spec: class GPU_queue_entry is referenced throughout
src/app (the routes read user_id, status, requested_at and queue_order) but
its definition is missing from src/app/models.py.  The fields follow spec
section 3: identity, requester reference, status, creation timestamp and an
explicit admin-mutable ordering key.  The source does not fix the default
ordering key of a fresh entry; the spec says rank falls back to the creation
timestamp when no manual reorder has happened, so the default key is
modelled as the creation timestamp. -/
structure GPU_queue_entry where
  entry_id : Nat
  user_id : Nat
  status : GPU_queue_status
  requested_at : Nat
  queue_order : Int
deriving DecidableEq, Repr

/-- The persistent store: one list per table in insertion order, plus the
autoincrement counters for the primary keys the handlers allocate. -/
structure State where
  users : List Nat
  gpus : List GPU_instance
  bookings : List GPU_booking
  usages : List GPU_usage
  queue : List GPU_queue_entry
  next_booking_id : Nat
  next_usage_id : Nat
  next_entry_id : Nat
deriving DecidableEq, Repr

/-- An error response: HTTP status code plus the message string from the
handler. -/
structure ApiErr where
  code : Nat
  msg : String
deriving DecidableEq, Repr

/-- Model of `GPU_instance.query.get(id)`. -/
def findGpu (s : State) (gid : Nat) : Option GPU_instance :=
  s.gpus.find? (fun g => g.id == gid)

/-- Model of `User.query.get(id)` reduced to a presence check (the handlers
only test existence). -/
def findUser (s : State) (uid : Nat) : Bool :=
  s.users.contains uid

/-- Model of `GPU_booking.query.get(id)`. -/
def findBooking (s : State) (bid : Nat) : Option GPU_booking :=
  s.bookings.find? (fun b => b.booking_id == bid)

/-- Model of `GPU_usage.query.get(id)`. -/
def findUsage (s : State) (uid : Nat) : Option GPU_usage :=
  s.usages.find? (fun u => u.usage_id == uid)

/-- Model of `GPU_queue_entry.query.get(id)`. -/
def findQueueEntry (s : State) (eid : Nat) : Option GPU_queue_entry :=
  s.queue.find? (fun q => q.entry_id == eid)

/-- Model of `gpu_instance.status = st` on the instance fetched by id
followed by a commit; a no-op when the id is absent, matching the
`if gpu_instance:` guards in the handlers. -/
def setGpuStatus (s : State) (gid : Nat) (st : GPU_status) : State :=
  { s with gpus := s.gpus.map (fun g => if g.id == gid then { g with status := st } else g) }

/-- src/app/utils.py, validate_booking_dates: both times must not be in the
past and start must lie strictly before end. -/
def validate_booking_dates (now start_time end_time : Nat) : Bool × String :=
  if start_time < now ∨ end_time < now then
    (false, "Booking times must be in the future.")
  else if start_time ≥ end_time then
    (false, "Start time must be before end time.")
  else
    (true, "")

/-- src/app/api/gpu_bookings/routes.py, book_gpu_instance (the registered
handler).  JSON parsing is assumed to succeed; `now` is the clock read by
validate_booking_dates.  Note the handler checks only the status flag of
the instance and the dates; it runs no query over existing bookings. -/
def book_gpu_instance (s : State) (now user_id gpu_id start_time end_time : Nat) :
    Except ApiErr State :=
  match findGpu s gpu_id with
  | none => .error ⟨404, "GPU instance not found"⟩
  | some gpu =>
    if gpu.status ≠ GPU_status.available then
      .error ⟨400, "GPU instance not available"⟩
    else
      let vd := validate_booking_dates now start_time end_time
      if vd.1 then
        if findUser s user_id then
          let booking : GPU_booking :=
            ⟨s.next_booking_id, user_id, gpu.id, start_time, end_time, false, none⟩
          .ok { (setGpuStatus s gpu_id GPU_status.booked) with
                bookings := s.bookings ++ [booking],
                next_booking_id := s.next_booking_id + 1 }
        else
          .error ⟨404, "User not found"⟩
      else
        .error ⟨400, vd.2⟩

/-- src/app/api/gpu_bookings/routes.py, cancel_gpu_booking.  The
soft_delete call is modelled from the spec (its body is missing from
models.py): it sets the cancellation flag and timestamp. -/
def cancel_gpu_booking (s : State) (booking_id now : Nat) : Except ApiErr State :=
  match findBooking s booking_id with
  | none => .error ⟨404, "Booking not found"⟩
  | some booking =>
    if booking.is_cancelled then
      .error ⟨400, "Booking is already cancelled"⟩
    else
      let s' := { s with bookings := s.bookings.map (fun b =>
        if b.booking_id == booking_id then
          { b with is_cancelled := true, cancelled_at := some now }
        else b) }
      .ok (setGpuStatus s' booking.gpu_id GPU_status.available)

/-- src/app/api/gpu_bookings/routes.py, is_available.  This helper performs
the status check plus the overlap query over non-cancelled bookings of the
resource, but no route in src ever calls it. -/
def is_available (s : State) (gpu_id start_time end_time : Nat) : Bool :=
  match findGpu s gpu_id with
  | none => false
  | some gpu =>
    if gpu.status ≠ GPU_status.available then
      false
    else
      let conflicting := s.bookings.filter (fun b =>
        decide (b.gpu_id = gpu_id) && decide (b.start_time < end_time) &&
        decide (start_time < b.end_time) && (b.is_cancelled == false))
      if conflicting.isEmpty then true else false

/-- src/app/api/gpu_bookings/routes.py, update_booking (the registered
handler).  A `some` argument models a key present (and truthy) in the
request JSON.  When the gpu changes, only the existence and AVAILABLE
status of the new instance are checked; the conflict query runs only when
the end time strictly grows, and runs against the booking's current
(pre-update) gpu_id, excluding the booking itself and cancelled rows. -/
def update_booking (s : State) (booking_id : Nat) (new_gpu_id : Option Nat)
    (new_end_time : Option Nat) : Except ApiErr State :=
  match findBooking s booking_id with
  | none => .error ⟨404, "Booking not found or already cancelled"⟩
  | some booking =>
    if booking.is_cancelled then
      .error ⟨404, "Booking not found or already cancelled"⟩
    else
      let gpu_check_failed : Bool :=
        match new_gpu_id with
        | none => false
        | some g =>
          if g = booking.gpu_id then false
          else
            match findGpu s g with
            | none => true
            | some gi => decide (gi.status ≠ GPU_status.available)
      if gpu_check_failed then
        .error ⟨400, "New GPU instance not available"⟩
      else
        let end_conflict : Bool :=
          match new_end_time with
          | none => false
          | some ne =>
            if booking.end_time < ne then
              let conflicting := s.bookings.filter (fun ob =>
                decide (ob.gpu_id = booking.gpu_id) &&
                decide (ob.booking_id ≠ booking.booking_id) &&
                decide (ob.start_time < ne) &&
                decide (booking.start_time < ob.end_time) &&
                (ob.is_cancelled == false))
              !conflicting.isEmpty
            else false
        if end_conflict then
          .error ⟨400, "New end time conflicts with other bookings"⟩
        else
          .ok { s with bookings := s.bookings.map (fun b =>
            if b.booking_id == booking_id then
              { b with gpu_id := new_gpu_id.getD b.gpu_id,
                       end_time := new_end_time.getD b.end_time }
            else b) }

/-- src/app/api/gpu_usage/routes.py, start_gpu_usage (the registered
handler).  A fresh record starts with a null end time and usage_duration
initialized to zero. -/
def start_gpu_usage (s : State) (now gpu_id booking_id : Nat) : Except ApiErr State :=
  match findGpu s gpu_id with
  | none => .error ⟨404, "GPU instance not found"⟩
  | some gpu =>
    match findBooking s booking_id with
    | none => .error ⟨404, "Booking not found or does not match GPU instance"⟩
    | some booking =>
      if booking.gpu_id ≠ gpu.id then
        .error ⟨404, "Booking not found or does not match GPU instance"⟩
      else
        match s.usages.find? (fun u =>
          decide (u.gpu_id = gpu.id) && decide (u.booking_id = booking.booking_id) &&
          u.end_time.isNone) with
        | some _ => .error ⟨400, "GPU usage tracking already started for this booking"⟩
        | none =>
          let usage : GPU_usage := ⟨s.next_usage_id, gpu.id, booking.booking_id, now, none, some 0⟩
          .ok { (setGpuStatus s gpu.id GPU_status.in_use) with
                usages := s.usages ++ [usage],
                next_usage_id := s.next_usage_id + 1 }

/-- src/app/api/gpu_usage/routes.py, stop_gpu_usage (the registered
handler).  The record's end time is overwritten with now and the instance
status is set to AVAILABLE unconditionally; there is no guard on a record
that already has an end time, and usage_duration is left untouched. -/
def stop_gpu_usage (s : State) (usage_id now : Nat) : Except ApiErr State :=
  match findUsage s usage_id with
  | none => .error ⟨404, "GPU usage record not found"⟩
  | some usage =>
    let s' := { s with usages := s.usages.map (fun u =>
      if u.usage_id == usage_id then { u with end_time := some now } else u) }
    .ok (setGpuStatus s' usage.gpu_id GPU_status.available)

/-- The report payload of gpu_usage_report. -/
structure UsageReport where
  gpu_id : Nat
  total_usage_duration_last_24_hours : Nat
  utilization_percentage : Option Int
  peak_memory_usage_MB : Option Int
  average_load_percentage : Option Int
deriving DecidableEq, Repr

/-- src/app/api/gpu_usage/routes.py, gpu_usage_report (the registered
handler).  `window_start` stands for utcnow() minus one day.  The Python
list comprehension keeps a record only when usage_duration is truthy, i.e.
non-null and non-zero; the sum of an empty comprehension is 0 and no
division occurs anywhere in this handler. -/
def gpu_usage_report (s : State) (gpu_id window_start : Nat) : Except ApiErr UsageReport :=
  let usage_records := s.usages.filter (fun u =>
    decide (u.gpu_id = gpu_id) && decide (window_start ≤ u.start_time))
  match findGpu s gpu_id with
  | none => .error ⟨404, "GPU instance not found"⟩
  | some gpu =>
    let total := (usage_records.filterMap (fun r =>
      match r.usage_duration with
      | some d => if d ≠ 0 then some d else none
      | none => none)).sum
    .ok ⟨gpu_id, total, gpu.utilization_percentage, gpu.peak_memory_usage, gpu.average_load⟩

/-- The count computed by the position query in join_gpu_queue and
check_queue_status: PENDING entries whose requested_at is at most `t`. -/
def pendingCountUpTo (s : State) (t : Nat) : Nat :=
  (s.queue.filter (fun q =>
    decide (q.requested_at ≤ t) && decide (q.status = GPU_queue_status.pending))).length

/-- The success payload of join_gpu_queue: HTTP code, the entry id of the
returned queue entry, and the computed position when one is reported. -/
structure JoinOut where
  code : Nat
  entry_id : Nat
  position : Option Nat
deriving DecidableEq, Repr

/-- src/app/api/queue/routes.py, join_gpu_queue (the registered handler).
user_id = 0 models a missing or falsy user_id in the request JSON.  When a
PENDING entry for the user already exists the handler returns it with its
computed position and adds nothing; otherwise it inserts a fresh entry. -/
def join_gpu_queue (s : State) (now user_id : Nat) : Except ApiErr (State × JoinOut) :=
  if user_id = 0 then
    .error ⟨400, "User ID is required"⟩
  else if findUser s user_id then
    match s.queue.find? (fun q =>
      decide (q.user_id = user_id) && decide (q.status = GPU_queue_status.pending)) with
    | some existing_entry =>
      .ok (s, ⟨200, existing_entry.entry_id,
               some (pendingCountUpTo s existing_entry.requested_at)⟩)
    | none =>
      let entry : GPU_queue_entry :=
        ⟨s.next_entry_id, user_id, GPU_queue_status.pending, now, Int.ofNat now⟩
      .ok ({ s with queue := s.queue ++ [entry], next_entry_id := s.next_entry_id + 1 },
           ⟨201, s.next_entry_id, none⟩)
  else
    .error ⟨404, "User not found"⟩

/-- src/app/api/queue/routes.py, cancel_queue_entry (the registered
handler). -/
def cancel_queue_entry (s : State) (queue_entry_id : Nat) : Except ApiErr State :=
  match findQueueEntry s queue_entry_id with
  | none => .error ⟨404, "Queue entry not found"⟩
  | some q =>
    if q.status = GPU_queue_status.cancelled then
      .error ⟨400, "Queue entry is already cancelled"⟩
    else if q.status = GPU_queue_status.allocated then
      .error ⟨400, "Cannot cancel an allocated queue entry"⟩
    else if q.status ≠ GPU_queue_status.pending then
      .error ⟨400, "Queue entry cannot be cancelled as it is not in a PENDING state"⟩
    else
      .ok { s with queue := s.queue.map (fun e =>
        if e.entry_id == queue_entry_id then
          { e with status := GPU_queue_status.cancelled }
        else e) }

/-- Model of `order_by(requested_at)` followed by `.first()`: the first
entry with minimal requested_at (a stable sort keeps the original order
among ties). -/
def firstByRequestedAt : List GPU_queue_entry → Option GPU_queue_entry
  | [] => none
  | e :: es =>
    match firstByRequestedAt es with
    | none => some e
    | some m => if e.requested_at ≤ m.requested_at then some e else some m

/-- src/app/api/queue/routes.py, get_next_in_queue (the registered
handler): the first PENDING entry ordered by requested_at, none when no
PENDING entry exists (the route then answers 404 with an empty body).
The ordering key queue_order plays no part here. -/
def get_next_in_queue (s : State) : Option GPU_queue_entry :=
  firstByRequestedAt (s.queue.filter (fun q => decide (q.status = GPU_queue_status.pending)))

/-- Model of `func.max(GPU_queue_entry.queue_order)` over the whole table:
none on an empty table. -/
def maxQueueOrder : List GPU_queue_entry → Option Int
  | [] => none
  | q :: qs =>
    match maxQueueOrder qs with
    | none => some q.queue_order
    | some m => some (max q.queue_order m)

/-- src/app/api/queue/routes.py, move_queue_entry (the registered handler).
front: every entry's queue_order is incremented, then the moved entry's is
set to 1.  back: the moved entry's queue_order becomes one more than the
current global maximum (`scalar() or 0` coincides with getD 0 because a
zero maximum maps to 0 either way).  The returned Int is the queue_order
reported in the response payload. -/
def move_queue_entry (s : State) (queue_entry_id : Nat) (position : String) :
    Except ApiErr (State × Int) :=
  match findQueueEntry s queue_entry_id with
  | none => .error ⟨404, "Queue entry not found"⟩
  | some _ =>
    if position ≠ "front" ∧ position ≠ "back" then
      .error ⟨400, "Invalid position"⟩
    else if position = "front" then
      let bumped := s.queue.map (fun q => { q with queue_order := q.queue_order + 1 })
      .ok ({ s with queue := bumped.map (fun q =>
              if q.entry_id == queue_entry_id then { q with queue_order := 1 } else q) },
           1)
    else
      let max_order := (maxQueueOrder s.queue).getD 0
      .ok ({ s with queue := s.queue.map (fun q =>
              if q.entry_id == queue_entry_id then { q with queue_order := max_order + 1 } else q) },
           max_order + 1)

/-- Extract the resulting state of a state-returning call, falling back to
`d` on error; the theorems about the scenarios below pin each call's
success separately. -/
def stateOf (r : Except ApiErr State) (d : State) : State :=
  match r with
  | .ok s => s
  | .error _ => d

/-- Extract the resulting state of a call that also returns a payload. -/
def stateOfP {α : Type} (r : Except ApiErr (State × α)) (d : State) : State :=
  match r with
  | .ok p => p.1
  | .error _ => d

/-- A fresh AVAILABLE instance with the given id and name, as
create_gpu_instance produces it (telemetry unpopulated). -/
def freshGpu (i : Nat) (nm : String) : GPU_instance :=
  ⟨i, nm, "A100", 16000, GPU_status.available, none, none, none⟩

/-- Scenario base state: three registered users and three fresh AVAILABLE
instances, no bookings, usages or queue entries. -/
def s0 : State :=
  { users := [1, 2, 3],
    gpus := [freshGpu 1 "gpu-0", freshGpu 2 "gpu-1", freshGpu 3 "gpu-2"],
    bookings := [], usages := [], queue := [],
    next_booking_id := 1, next_usage_id := 1, next_entry_id := 1 }

/-- After booking gpu 1 for user 1 over the interval from 100 to 300 (clock
at 10): booking 1 exists, gpu 1 is BOOKED. -/
def s1 : State := stateOf (book_gpu_instance s0 10 1 1 100 300) s0

/-- After additionally booking gpu 2 for user 2 over the same interval:
booking 2 exists, gpu 2 is BOOKED. -/
def s2 : State := stateOf (book_gpu_instance s1 10 2 2 100 300) s1

/-- After moving booking 1 onto gpu 3 via update_booking: gpu 3 stays
AVAILABLE (update_booking touches no instance status) while carrying the
non-cancelled booking 1. -/
def s3 : State := stateOf (update_booking s2 1 (some 3) none) s2

/-- After also moving booking 2 onto gpu 3: two non-cancelled bookings with
identical intervals now target gpu 3. -/
def s4 : State := stateOf (update_booking s3 2 (some 3) none) s3

/-- Queue scenario: user 1 joins at time 5 (entry 1). -/
def qs1 : State := stateOfP (join_gpu_queue s0 5 1) s0

/-- Queue scenario: user 2 joins at time 6 (entry 2). -/
def qs2 : State := stateOfP (join_gpu_queue qs1 6 2) qs1

/-- Queue scenario: entry 2 is moved to the front. -/
def qs3 : State := stateOfP (move_queue_entry qs2 2 "front") qs2

/-- Usage scenario: usage tracking for booking 1 on gpu 1 starts at time
100 (usage record 1, duration initialized to 0). -/
def us1 : State := stateOf (start_gpu_usage s1 100 1 1) s1

/-- Usage scenario: usage record 1 is stopped at time 250. -/
def us2 : State := stateOf (stop_gpu_usage us1 1 250) us1

/-- Witness state for the unguarded stop: usage record 1 already carries an
end time while gpu 1 sits in MAINTENANCE. -/
def ws1 : State :=
  { users := [1],
    gpus := [{ freshGpu 1 "gpu-0" with status := GPU_status.maintenance }],
    bookings := [⟨1, 1, 1, 100, 300, false, none⟩],
    usages := [⟨1, 1, 1, 100, some 250, some 0⟩],
    queue := [],
    next_booking_id := 2, next_usage_id := 2, next_entry_id := 1 }

/-- Spec section 3: two half-open intervals overlap iff s1 < e2 and s2 < e1. -/
def intervalsOverlap (s1 e1 s2 e2 : Nat) : Bool :=
  decide (s1 < e2) && decide (s2 < e1)

/-- Pairwise non-overlap of the non-cancelled bookings that share a
resource, over a list of bookings. -/
def noOverlapList : List GPU_booking → Bool
  | [] => true
  | b :: bs =>
    bs.all (fun b2 =>
      !(decide (b.gpu_id = b2.gpu_id) && !b.is_cancelled && !b2.is_cancelled &&
        intervalsOverlap b.start_time b.end_time b2.start_time b2.end_time)) &&
    noOverlapList bs

/-- Spec invariant over a state: for every resource the non-cancelled
reservations have pairwise non-overlapping intervals. -/
def bookingInvariant (s : State) : Bool :=
  noOverlapList s.bookings

/-! Helper lemmas about list primitives used by the handlers. -/

theorem find?_map_of_pred_comm {α : Type} (h : α → α) (p : α → Bool) (l : List α)
    (hp : ∀ a, p (h a) = p a) : (l.map h).find? p = (l.find? p).map h := by
  induction l with
  | nil => simp
  | cons a t ih =>
    simp only [List.map_cons, List.find?_cons, hp a]
    cases hpa : p a
    · simpa [hpa] using ih
    · simp [hpa]

theorem find?_append_of_none {α : Type} (p : α → Bool) (l₁ l₂ : List α)
    (h : l₁.find? p = none) : (l₁ ++ l₂).find? p = l₂.find? p := by
  induction l₁ with
  | nil => simp
  | cons a t ih =>
    cases hpa : p a
    · rw [List.find?_cons_of_neg _ (by simp [hpa])] at h
      rw [List.cons_append, List.find?_cons_of_neg _ (by simp [hpa])]
      exact ih h
    · rw [List.find?_cons_of_pos _ hpa] at h
      cases h

theorem filter_isEmpty_false_of_mem {α : Type} (p : α → Bool) (l : List α) (a : α)
    (ha : a ∈ l) (hp : p a = true) : (l.filter p).isEmpty = false := by
  have hmem : a ∈ l.filter p := List.mem_filter.mpr ⟨ha, hp⟩
  cases hfl : l.filter p with
  | nil => rw [hfl] at hmem; cases hmem
  | cons b t => simp [List.isEmpty]

theorem firstByRequestedAt_eq_none {l : List GPU_queue_entry}
    (h : firstByRequestedAt l = none) : l = [] := by
  cases l with
  | nil => rfl
  | cons a t =>
    exfalso
    cases hrec : firstByRequestedAt t with
    | none => simp [firstByRequestedAt, hrec] at h
    | some m =>
      simp only [firstByRequestedAt, hrec] at h
      split at h <;> simp at h

theorem firstByRequestedAt_mem {l : List GPU_queue_entry} {e : GPU_queue_entry}
    (h : firstByRequestedAt l = some e) : e ∈ l := by
  induction l generalizing e with
  | nil => cases h
  | cons a t ih =>
    cases hrec : firstByRequestedAt t with
    | none =>
      simp only [firstByRequestedAt, hrec] at h
      injection h with h1
      subst h1
      exact List.mem_cons_self _ _
    | some m =>
      simp only [firstByRequestedAt, hrec] at h
      split at h
      · injection h with h1
        subst h1
        exact List.mem_cons_self _ _
      · injection h with h1
        subst h1
        exact List.mem_cons_of_mem _ (ih hrec)

theorem firstByRequestedAt_min {l : List GPU_queue_entry} {e : GPU_queue_entry}
    (h : firstByRequestedAt l = some e) :
    ∀ q ∈ l, e.requested_at ≤ q.requested_at := by
  induction l generalizing e with
  | nil => cases h
  | cons a t ih =>
    intro q hq
    cases hrec : firstByRequestedAt t with
    | none =>
      have ht : t = [] := firstByRequestedAt_eq_none hrec
      subst ht
      simp only [firstByRequestedAt] at h
      injection h with h1
      subst h1
      rcases List.mem_singleton.mp hq with rfl
      exact Nat.le_refl _
    | some m =>
      simp only [firstByRequestedAt, hrec] at h
      rcases List.mem_cons.mp hq with rfl | hqt
      · split at h
        · injection h with h1; subst h1; exact Nat.le_refl _
        · injection h with h1
          subst h1
          next hnle => exact Nat.le_of_lt (Nat.lt_of_not_le hnle)
      · split at h
        · next hle =>
            injection h with h1
            subst h1
            exact Nat.le_trans hle (ih hrec q hqt)
        · injection h with h1
          subst h1
          exact ih hrec q hqt

theorem le_maxQueueOrder {l : List GPU_queue_entry} {q : GPU_queue_entry} (hq : q ∈ l) :
    ∃ m, maxQueueOrder l = some m ∧ q.queue_order ≤ m := by
  induction l with
  | nil => cases hq
  | cons a t ih =>
    rcases List.mem_cons.mp hq with rfl | hqt
    · cases hrec : maxQueueOrder t with
      | none => exact ⟨q.queue_order, by simp [maxQueueOrder, hrec], le_refl _⟩
      | some m => exact ⟨max q.queue_order m, by simp [maxQueueOrder, hrec], le_max_left _ _⟩
    · rcases ih hqt with ⟨m, hm, hle⟩
      refine ⟨max a.queue_order m, ?_, le_trans hle (le_max_right _ _)⟩
      simp [maxQueueOrder, hm]

/-! Theorems settling the claims. -/

/-- C1: the claim says book checks the requested interval for overlap
against all non-cancelled reservations of the resource and fails with
Conflict whenever one overlaps.  The handler runs no such query: in the
gpu-0 scenario the second, overlapping booking is rejected with the
status-based message "GPU instance not available" (ResourceUnavailable,
not Conflict), and in the reachable state s4 — where gpu 3 is AVAILABLE
yet carries two non-cancelled reservations over [100, 300) — a third
booking of gpu 3 over [100, 300) succeeds outright, exactly where the
never-called overlap helper is_available reports a conflict. -/
theorem c1_book_runs_no_overlap_check :
    (book_gpu_instance s0 10 1 1 100 300).isOk = true
    ∧ book_gpu_instance s1 10 2 1 150 250 = .error ⟨400, "GPU instance not available"⟩
    ∧ (book_gpu_instance s1 10 2 2 100 300).isOk = true
    ∧ (update_booking s2 1 (some 3) none).isOk = true
    ∧ (update_booking s3 2 (some 3) none).isOk = true
    ∧ s4.bookings.any (fun b => decide (b.gpu_id = 3) && !b.is_cancelled &&
        intervalsOverlap b.start_time b.end_time 100 300) = true
    ∧ is_available s4 3 100 300 = false
    ∧ (book_gpu_instance s4 10 3 3 100 300).isOk = true := by
  decide

/-- C2: the non-overlap invariant for non-cancelled reservations of one
resource does not survive every sequence of operations: the four-step
sequence book, book, update, update below passes every check in the code
and ends in state s4, where bookings 1 and 2 are both non-cancelled on
gpu 3 with identical intervals [100, 300). -/
theorem c2_invariant_violated :
    bookingInvariant s0 = true
    ∧ (book_gpu_instance s0 10 1 1 100 300).isOk = true
    ∧ (book_gpu_instance s1 10 2 2 100 300).isOk = true
    ∧ (update_booking s2 1 (some 3) none).isOk = true
    ∧ (update_booking s3 2 (some 3) none).isOk = true
    ∧ bookingInvariant s3 = true
    ∧ bookingInvariant s4 = false := by
  decide

/-- C8: stop is claimed to compute and store the record's duration.  In the
scenario below usage record 1 starts at time 100 and is stopped at time
250, yet its usage_duration still holds the initial 0 (not 150): the
handler writes only the end time and the instance status. -/
theorem c8_stop_skips_duration :
    (start_gpu_usage s1 100 1 1).isOk = true
    ∧ (stop_gpu_usage us1 1 250).isOk = true
    ∧ findUsage us2 1 = some ⟨1, 1, 1, 100, some 250, some 0⟩ := by
  decide

/-- C3 counterexample: entry 1 joins at time 5 and entry 2 at time 6; both
are PENDING.  After moving entry 2 to the front the ordering keys are 6
for entry 1 and 1 for entry 2, so the PENDING entry with the smallest
ordering key is entry 2 — but next() returns entry 1: the handler orders
by requested_at and ignores queue_order. -/
theorem c3_counterexample :
    (join_gpu_queue s0 5 1).isOk = true
    ∧ (join_gpu_queue qs1 6 2).isOk = true
    ∧ (move_queue_entry qs2 2 "front").isOk = true
    ∧ qs3.queue.map (fun q => (q.entry_id, q.queue_order)) = [(1, 6), (2, 1)]
    ∧ qs3.queue.all (fun q => decide (q.status = GPU_queue_status.pending)) = true
    ∧ (get_next_in_queue qs3).map (fun q => q.entry_id) = some 1 := by
  decide

/-- C4 counterexample: in qs2 the ordering keys are 5 (entry 1) and 6
(entry 2), so the claim predicts that moving entry 2 to the front
reassigns its key to the global minimum minus one, 4, and makes its
position 1 while entry 1 shifts to position 2.  The handler instead sets
the moved key to 1 (incrementing the others), and the computed positions
— counts over requested_at — do not change at all: entry 2 stays at
position 2 and entry 1 at position 1. -/
theorem c4_counterexample :
    qs2.queue.map (fun q => (q.entry_id, q.queue_order)) = [(1, 5), (2, 6)]
    ∧ move_queue_entry qs2 2 "front" = .ok (qs3, 1)
    ∧ qs3.queue.map (fun q => (q.entry_id, q.queue_order)) = [(1, 6), (2, 1)]
    ∧ pendingCountUpTo qs2 6 = 2 ∧ pendingCountUpTo qs3 6 = 2
    ∧ pendingCountUpTo qs2 5 = 1 ∧ pendingCountUpTo qs3 5 = 1 := by
  decide

/-- C7 counterexample: in the reachable state s3 booking 1 sits
non-cancelled on gpu 3 over [100, 300), and booking 2 (on gpu 2, same
interval) is updated to resource gpu 3.  The claim says the update re-runs
the overlap check against the new resource and must fail with Conflict;
the handler checks only that gpu 3's status is AVAILABLE and accepts,
leaving two overlapping non-cancelled reservations on gpu 3. -/
theorem c7_counterexample :
    s3.bookings.any (fun b => decide (b.gpu_id = 3) && decide (b.booking_id ≠ 2) &&
        !b.is_cancelled && intervalsOverlap b.start_time b.end_time 100 300) = true
    ∧ findBooking s3 2 = some ⟨2, 2, 2, 100, 300, false, none⟩
    ∧ (update_booking s3 2 (some 3) none).isOk = true
    ∧ findBooking s4 2 = some ⟨2, 2, 3, 100, 300, false, none⟩ := by
  decide

/-- C3 (amended): next() returns a PENDING entry that is minimal by
creation timestamp (requested_at) among the PENDING entries — the ordering
key queue_order plays no part — and returns Empty exactly when no PENDING
entry exists. -/
theorem c3_next_returns_earliest_pending :
    (∀ (s : State) (e : GPU_queue_entry), get_next_in_queue s = some e →
      e ∈ s.queue ∧ e.status = GPU_queue_status.pending ∧
      ∀ q ∈ s.queue, q.status = GPU_queue_status.pending →
        e.requested_at ≤ q.requested_at)
    ∧ (∀ s : State, get_next_in_queue s = none →
      ∀ q ∈ s.queue, q.status ≠ GPU_queue_status.pending) := by
  constructor
  · intro s e h
    unfold get_next_in_queue at h
    have hmem := List.mem_filter.mp (firstByRequestedAt_mem h)
    refine ⟨hmem.1, by simpa using hmem.2, ?_⟩
    intro q hq hqp
    exact firstByRequestedAt_min h q (List.mem_filter.mpr ⟨hq, by simpa using hqp⟩)
  · intro s h q hq hqp
    unfold get_next_in_queue at h
    have hnil := firstByRequestedAt_eq_none h
    have hqf : q ∈ s.queue.filter (fun q => decide (q.status = GPU_queue_status.pending)) :=
      List.mem_filter.mpr ⟨hq, by simpa using hqp⟩
    rw [hnil] at hqf
    cases hqf

/-- Witness for c3_next_returns_earliest_pending at the concrete queue
state qs3, where next() yields entry 1. -/
theorem c3_witness :
    (⟨1, 1, GPU_queue_status.pending, 5, 6⟩ : GPU_queue_entry) ∈ qs3.queue
    ∧ (⟨1, 1, GPU_queue_status.pending, 5, 6⟩ : GPU_queue_entry).status
        = GPU_queue_status.pending := by
  have h := c3_next_returns_earliest_pending.1 qs3
    ⟨1, 1, GPU_queue_status.pending, 5, 6⟩ (by decide)
  exact ⟨h.1, h.2.1⟩

/-- When a map over the queue changes neither requested_at nor status, the
computed positions are unchanged. -/
theorem pendingCountUpTo_map_inv (s : State) (f : GPU_queue_entry → GPU_queue_entry)
    (hf : ∀ q, (f q).requested_at = q.requested_at ∧ (f q).status = q.status) (t : Nat) :
    pendingCountUpTo { s with queue := s.queue.map f } t = pendingCountUpTo s t := by
  unfold pendingCountUpTo
  rw [List.filter_map, List.length_map]
  congr 1
  apply List.filter_congr
  intro q _
  simp [Function.comp, (hf q).1, (hf q).2]

/-- C4 (amended for the registered handler): moving an entry to the front
increments every entry's ordering key by one and then sets the moved
entry's key to 1 (not to one less than the prior global minimum); moving
to the back reassigns the moved entry's key to one greater than every
current key, leaving all other entries untouched; an unknown entry fails
with 404 and a position token other than front or back fails with 400
"Invalid position"; the computed queue positions count by requested_at
and are unchanged by either move, so the moved entry's position does not
become 1 and no other entry's position shifts. -/
theorem c4_move_semantics :
    (∀ (s : State) (id : Nat) (pos : String), findQueueEntry s id = none →
      move_queue_entry s id pos = .error ⟨404, "Queue entry not found"⟩)
    ∧ (∀ (s : State) (id : Nat) (pos : String) (e : GPU_queue_entry),
        findQueueEntry s id = some e → pos ≠ "front" → pos ≠ "back" →
        move_queue_entry s id pos = .error ⟨400, "Invalid position"⟩)
    ∧ (∀ (s : State) (id : Nat) (e : GPU_queue_entry), findQueueEntry s id = some e →
        ∃ s', move_queue_entry s id "front" = .ok (s', 1)
          ∧ (∀ q ∈ s.queue, q.entry_id = id →
              ({ q with queue_order := 1 } : GPU_queue_entry) ∈ s'.queue)
          ∧ (∀ q ∈ s.queue, q.entry_id ≠ id →
              ({ q with queue_order := q.queue_order + 1 } : GPU_queue_entry) ∈ s'.queue)
          ∧ (∀ t, pendingCountUpTo s' t = pendingCountUpTo s t))
    ∧ (∀ (s : State) (id : Nat) (e : GPU_queue_entry), findQueueEntry s id = some e →
        ∃ s' v, move_queue_entry s id "back" = .ok (s', v)
          ∧ (∀ q ∈ s.queue, q.queue_order < v)
          ∧ (∀ q ∈ s.queue, q.entry_id = id →
              ({ q with queue_order := v } : GPU_queue_entry) ∈ s'.queue)
          ∧ (∀ q ∈ s.queue, q.entry_id ≠ id → q ∈ s'.queue)
          ∧ (∀ t, pendingCountUpTo s' t = pendingCountUpTo s t)) := by
  refine ⟨?_, ?_, ?_, ?_⟩
  · intro s id pos h
    simp [move_queue_entry, h]
  · intro s id pos e h hf hb
    simp [move_queue_entry, h, hf, hb]
  · intro s id e h
    refine ⟨{ s with queue :=
        ((s.queue.map (fun q => { q with queue_order := q.queue_order + 1 })).map
          (fun q => if q.entry_id == id then { q with queue_order := 1 } else q)) },
      ?_, ?_, ?_, ?_⟩
    · simp [move_queue_entry, h]
    · intro q hq hqid
      have h1 : ({ q with queue_order := q.queue_order + 1 } : GPU_queue_entry)
          ∈ s.queue.map (fun q => { q with queue_order := q.queue_order + 1 }) :=
        List.mem_map_of_mem _ hq
      have h2 := List.mem_map_of_mem
        (fun q => if q.entry_id == id then { q with queue_order := 1 } else q) h1
      simpa [hqid] using h2
    · intro q hq hqid
      have h1 : ({ q with queue_order := q.queue_order + 1 } : GPU_queue_entry)
          ∈ s.queue.map (fun q => { q with queue_order := q.queue_order + 1 }) :=
        List.mem_map_of_mem _ hq
      have h2 := List.mem_map_of_mem
        (fun q => if q.entry_id == id then { q with queue_order := 1 } else q) h1
      simpa [hqid] using h2
    · intro t
      have := pendingCountUpTo_map_inv s
        ((fun q => if q.entry_id == id then { q with queue_order := 1 } else q) ∘
          (fun q => { q with queue_order := q.queue_order + 1 }))
        (by
          intro q
          by_cases hc : q.entry_id = id <;> simp [Function.comp, hc]) t
      simpa [List.map_map] using this
  · intro s id e h
    refine ⟨{ s with queue :=
        (s.queue.map (fun q => if q.entry_id == id then
          { q with queue_order := (maxQueueOrder s.queue).getD 0 + 1 } else q)) },
      (maxQueueOrder s.queue).getD 0 + 1, ?_, ?_, ?_, ?_, ?_⟩
    · simp [move_queue_entry, h]
    · intro q hq
      rcases le_maxQueueOrder hq with ⟨m, hm, hle⟩
      rw [hm]
      exact lt_of_le_of_lt hle (by simp)
    · intro q hq hqid
      have h2 := List.mem_map_of_mem
        (fun q => if q.entry_id == id then
          { q with queue_order := (maxQueueOrder s.queue).getD 0 + 1 } else q) hq
      simpa [hqid] using h2
    · intro q hq hqid
      have h2 := List.mem_map_of_mem
        (fun q => if q.entry_id == id then
          { q with queue_order := (maxQueueOrder s.queue).getD 0 + 1 } else q) hq
      simpa [hqid] using h2
    · intro t
      exact pendingCountUpTo_map_inv s _
        (by
          intro q
          by_cases hc : q.entry_id = id <;> simp [hc]) t

/-- Witness for c4_move_semantics: the error branches at concrete inputs
(entry 99 is absent from qs2; "middle" is not a recognised token). -/
theorem c4_witness :
    move_queue_entry qs2 99 "front" = .error ⟨404, "Queue entry not found"⟩
    ∧ move_queue_entry qs2 2 "middle" = .error ⟨400, "Invalid position"⟩ := by
  refine ⟨c4_move_semantics.1 qs2 99 "front" (by decide), ?_⟩
  exact c4_move_semantics.2.1 qs2 2 "middle" ⟨2, 2, GPU_queue_status.pending, 6, 6⟩
    (by decide) (by decide) (by decide)

/-- C5: join is idempotent for a requester with a PENDING entry: when such
an entry exists join returns it (HTTP 200) together with its computed
position and leaves the state unchanged, and two consecutive joins with no
cancellation in between return the same entry id, the second call changing
nothing. -/
theorem c5_join_idempotent :
    (∀ (s : State) (now uid : Nat) (e : GPU_queue_entry),
      uid ≠ 0 → findUser s uid = true →
      s.queue.find? (fun q => decide (q.user_id = uid) &&
        decide (q.status = GPU_queue_status.pending)) = some e →
      join_gpu_queue s now uid =
        .ok (s, ⟨200, e.entry_id, some (pendingCountUpTo s e.requested_at)⟩))
    ∧ (∀ (s : State) (now1 now2 uid : Nat) (s1 : State) (out1 : JoinOut),
      join_gpu_queue s now1 uid = .ok (s1, out1) →
      ∃ out2, join_gpu_queue s1 now2 uid = .ok (s1, out2) ∧
        out2.entry_id = out1.entry_id ∧ out2.code = 200) := by
  have hpart1 : ∀ (s : State) (now uid : Nat) (e : GPU_queue_entry),
      uid ≠ 0 → findUser s uid = true →
      s.queue.find? (fun q => decide (q.user_id = uid) &&
        decide (q.status = GPU_queue_status.pending)) = some e →
      join_gpu_queue s now uid =
        .ok (s, ⟨200, e.entry_id, some (pendingCountUpTo s e.requested_at)⟩) := by
    intro s now uid e h0 hu hfind
    simp [join_gpu_queue, h0, hu, hfind]
  refine ⟨hpart1, ?_⟩
  intro s now1 now2 uid s1 out1 h
  by_cases h0 : uid = 0
  · simp [join_gpu_queue, h0] at h
  cases hu : findUser s uid with
  | false => simp [join_gpu_queue, h0, hu] at h
  | true =>
    cases hfind : s.queue.find? (fun q => decide (q.user_id = uid) &&
        decide (q.status = GPU_queue_status.pending)) with
    | some e =>
      rw [hpart1 s now1 uid e h0 hu hfind] at h
      simp only [Except.ok.injEq, Prod.mk.injEq] at h
      obtain ⟨rfl, rfl⟩ := h
      exact ⟨_, hpart1 s now2 uid e h0 hu hfind, rfl, rfl⟩
    | none =>
      simp only [join_gpu_queue, h0, hu, hfind, Except.ok.injEq, Prod.mk.injEq,
        reduceIte] at h
      obtain ⟨rfl, rfl⟩ := h
      have hu2 : findUser { s with
          queue := s.queue ++ [⟨s.next_entry_id, uid, GPU_queue_status.pending, now1,
            Int.ofNat now1⟩],
          next_entry_id := s.next_entry_id + 1 } uid = true := hu
      have hfind2 : ({ s with
          queue := s.queue ++ [⟨s.next_entry_id, uid, GPU_queue_status.pending, now1,
            Int.ofNat now1⟩],
          next_entry_id := s.next_entry_id + 1 } : State).queue.find?
            (fun q => decide (q.user_id = uid) &&
              decide (q.status = GPU_queue_status.pending)) =
          some ⟨s.next_entry_id, uid, GPU_queue_status.pending, now1, Int.ofNat now1⟩ := by
        show (s.queue ++ [(⟨s.next_entry_id, uid, GPU_queue_status.pending, now1,
            Int.ofNat now1⟩ : GPU_queue_entry)]).find? _ = _
        rw [find?_append_of_none _ _ _ hfind]
        simp
      exact ⟨_, hpart1 _ now2 uid _ h0 hu2 hfind2, rfl, rfl⟩

/-- Witness for c5_join_idempotent: after user 1 joins the empty queue, a
second join returns the same entry id 1 with HTTP 200 and leaves the state
qs1 unchanged. -/
theorem c5_witness :
    ∃ out2, join_gpu_queue qs1 7 1 = .ok (qs1, out2) ∧
      out2.entry_id = 1 ∧ out2.code = 200 := by
  exact c5_join_idempotent.2 s0 5 7 1 qs1 ⟨201, 1, none⟩ (by decide)

/-- C6: cancel fails with 404 when the reservation is absent and with 400
"Booking is already cancelled" when it is already soft-deleted; otherwise
it sets the cancellation flag and timestamp, transitions the referenced
resource (when present) back to AVAILABLE, and a second cancel of the same
reservation fails with the already-cancelled error, returning no new
state. -/
theorem c6_cancel_lifecycle :
    (∀ (s : State) (bid now : Nat), findBooking s bid = none →
      cancel_gpu_booking s bid now = .error ⟨404, "Booking not found"⟩)
    ∧ (∀ (s : State) (bid now : Nat) (b : GPU_booking),
        findBooking s bid = some b → b.is_cancelled = true →
        cancel_gpu_booking s bid now = .error ⟨400, "Booking is already cancelled"⟩)
    ∧ (∀ (s : State) (bid now now2 : Nat) (b : GPU_booking),
        findBooking s bid = some b → b.is_cancelled = false →
        ∃ s', cancel_gpu_booking s bid now = .ok s'
          ∧ findBooking s' bid =
              some { b with is_cancelled := true, cancelled_at := some now }
          ∧ (∀ g, findGpu s b.gpu_id = some g →
              findGpu s' b.gpu_id = some { g with status := GPU_status.available })
          ∧ cancel_gpu_booking s' bid now2 =
              .error ⟨400, "Booking is already cancelled"⟩) := by
  refine ⟨?_, ?_, ?_⟩
  · intro s bid now h
    simp [cancel_gpu_booking, h]
  · intro s bid now b h hcan
    simp [cancel_gpu_booking, h, hcan]
  · intro s bid now now2 b hfind hcan
    have hfind' : s.bookings.find? (fun x => x.booking_id == bid) = some b := hfind
    have hbid : b.booking_id = bid := by
      have hb0 := List.find?_some hfind'
      simpa using hb0
    refine ⟨setGpuStatus { s with bookings :=
        (s.bookings.map (fun x => if x.booking_id == bid then
          { x with is_cancelled := true, cancelled_at := some now } else x)) }
      b.gpu_id GPU_status.available, ?_, ?_, ?_, ?_⟩
    · simp [cancel_gpu_booking, hfind, hcan]
    · show (s.bookings.map (fun x => if x.booking_id == bid then
          { x with is_cancelled := true, cancelled_at := some now } else x)).find?
            (fun x => x.booking_id == bid) = _
      rw [find?_map_of_pred_comm _ _ _ (by
        intro a
        by_cases ha : a.booking_id = bid <;> simp [ha])]
      rw [hfind']
      simp [hbid]
    · intro g hg
      have hg' : s.gpus.find? (fun x => x.id == b.gpu_id) = some g := hg
      have hgid : g.id = b.gpu_id := by
        have hg0 := List.find?_some hg'
        simpa using hg0
      show (s.gpus.map (fun x => if x.id == b.gpu_id then
          { x with status := GPU_status.available } else x)).find?
            (fun x => x.id == b.gpu_id) = _
      rw [find?_map_of_pred_comm _ _ _ (by
        intro a
        by_cases ha : a.id = b.gpu_id <;> simp [ha])]
      rw [hg']
      simp [hgid]
    · have hfb2 : findBooking (setGpuStatus { s with bookings :=
          (s.bookings.map (fun x => if x.booking_id == bid then
            { x with is_cancelled := true, cancelled_at := some now } else x)) }
        b.gpu_id GPU_status.available) bid =
          some { b with is_cancelled := true, cancelled_at := some now } := by
        show (s.bookings.map (fun x => if x.booking_id == bid then
            { x with is_cancelled := true, cancelled_at := some now } else x)).find?
              (fun x => x.booking_id == bid) = _
        rw [find?_map_of_pred_comm _ _ _ (by
          intro a
          by_cases ha : a.booking_id = bid <;> simp [ha])]
        rw [hfind']
        simp [hbid]
      simp only [cancel_gpu_booking, hfb2]
      rfl

/-- Witness for c6_cancel_lifecycle at the concrete state s1: cancelling
booking 1 succeeds (the state changes) and a second cancel fails with the
already-cancelled error. -/
theorem c6_witness :
    ∃ s', cancel_gpu_booking s1 1 50 = .ok s'
      ∧ findBooking s' 1 = some ⟨1, 1, 1, 100, 300, true, some 50⟩
      ∧ cancel_gpu_booking s' 1 60 = .error ⟨400, "Booking is already cancelled"⟩ := by
  obtain ⟨s', h1, h2, _, h4⟩ :=
    c6_cancel_lifecycle.2.2 s1 1 50 60 ⟨1, 1, 1, 100, 300, false, none⟩
      (by decide) (by decide)
  exact ⟨s', h1, h2, h4⟩

/-- C7 (amended): update rejects an absent or cancelled booking with 404;
changing the resource checks only that the new instance exists with status
AVAILABLE — when that passes the update succeeds with no overlap query
against the new resource's reservations; extending the end time past the
current one fails with 400 when a non-cancelled booking of the *current*
resource (other than this one) overlaps the widened window; shrinking the
end time (or keeping it) is accepted with no conflict re-check. -/
theorem c7_update_checks :
    (∀ (s : State) (bid : Nat) (ng ne : Option Nat), findBooking s bid = none →
      update_booking s bid ng ne = .error ⟨404, "Booking not found or already cancelled"⟩)
    ∧ (∀ (s : State) (bid : Nat) (ng ne : Option Nat) (b : GPU_booking),
        findBooking s bid = some b → b.is_cancelled = true →
        update_booking s bid ng ne = .error ⟨404, "Booking not found or already cancelled"⟩)
    ∧ (∀ (s : State) (bid g : Nat) (ne : Option Nat) (b : GPU_booking),
        findBooking s bid = some b → b.is_cancelled = false → g ≠ b.gpu_id →
        findGpu s g = none →
        update_booking s bid (some g) ne = .error ⟨400, "New GPU instance not available"⟩)
    ∧ (∀ (s : State) (bid g : Nat) (ne : Option Nat) (b : GPU_booking) (gi : GPU_instance),
        findBooking s bid = some b → b.is_cancelled = false → g ≠ b.gpu_id →
        findGpu s g = some gi → gi.status ≠ GPU_status.available →
        update_booking s bid (some g) ne = .error ⟨400, "New GPU instance not available"⟩)
    ∧ (∀ (s : State) (bid g : Nat) (b : GPU_booking) (gi : GPU_instance),
        findBooking s bid = some b → b.is_cancelled = false →
        findGpu s g = some gi → gi.status = GPU_status.available →
        ∃ s', update_booking s bid (some g) none = .ok s'
          ∧ findBooking s' bid = some { b with gpu_id := g })
    ∧ (∀ (s : State) (bid ne : Nat) (b : GPU_booking) (ob : GPU_booking),
        findBooking s bid = some b → b.is_cancelled = false →
        b.end_time < ne → ob ∈ s.bookings → ob.gpu_id = b.gpu_id →
        ob.booking_id ≠ b.booking_id → ob.start_time < ne →
        b.start_time < ob.end_time → ob.is_cancelled = false →
        update_booking s bid none (some ne) =
          .error ⟨400, "New end time conflicts with other bookings"⟩)
    ∧ (∀ (s : State) (bid ne : Nat) (b : GPU_booking),
        findBooking s bid = some b → b.is_cancelled = false → ne ≤ b.end_time →
        ∃ s', update_booking s bid none (some ne) = .ok s'
          ∧ findBooking s' bid = some { b with end_time := ne }) := by
  refine ⟨?_, ?_, ?_, ?_, ?_, ?_, ?_⟩
  · intro s bid ng ne h
    simp [update_booking, h]
  · intro s bid ng ne b h hcan
    simp [update_booking, h, hcan]
  · intro s bid g ne b h hcan hne hg
    simp [update_booking, h, hcan, hne, hg]
  · intro s bid g ne b gi h hcan hne hg hst
    simp [update_booking, h, hcan, hne, hg, hst]
  · intro s bid g b gi h hcan hg hst
    have hbid : b.booking_id = bid := by
      have hb0 := List.find?_some (show s.bookings.find?
        (fun x => x.booking_id == bid) = some b from h)
      simpa using hb0
    have hnofail : (if g = b.gpu_id then false
        else match findGpu s g with
          | none => true
          | some gi => decide (gi.status ≠ GPU_status.available)) = false := by
      by_cases hgb : g = b.gpu_id
      · simp [hgb]
      · simp [hgb, hg, hst]
    refine ⟨{ s with bookings :=
        (s.bookings.map (fun x => if x.booking_id == bid then
          { x with gpu_id := g, end_time := x.end_time } else x)) }, ?_, ?_⟩
    · simp only [update_booking, h, hcan, Bool.false_eq_true, if_false, hnofail,
        Option.getD_some, Option.getD_none, Except.ok.injEq]
    · show (s.bookings.map (fun x => if x.booking_id == bid then
          { x with gpu_id := g, end_time := x.end_time } else x)).find?
            (fun x => x.booking_id == bid) = _
      rw [find?_map_of_pred_comm _ _ _ (by
        intro a
        by_cases ha : a.booking_id = bid <;> simp [ha])]
      rw [show s.bookings.find? (fun x => x.booking_id == bid) = some b from h]
      simp [hbid]
  · intro s bid ne b ob h hcan hlt hmem hgpu hid hs he hobc
    have hpred : (fun x => decide (x.gpu_id = b.gpu_id) &&
        decide (x.booking_id ≠ b.booking_id) && decide (x.start_time < ne) &&
        decide (b.start_time < x.end_time) && (x.is_cancelled == false)) ob = true := by
      simp [hgpu, hid, hs, he, hobc]
    have hne : ((s.bookings.filter (fun x => decide (x.gpu_id = b.gpu_id) &&
        decide (x.booking_id ≠ b.booking_id) && decide (x.start_time < ne) &&
        decide (b.start_time < x.end_time) && (x.is_cancelled == false))).isEmpty) = false :=
      filter_isEmpty_false_of_mem _ _ ob hmem hpred
    simp [update_booking, h, hcan, hlt, hne]
    exact ⟨ob, hmem, hgpu, hid, hs, he, hobc⟩
  · intro s bid ne b h hcan hle
    have hbid : b.booking_id = bid := by
      have hb0 := List.find?_some (show s.bookings.find?
        (fun x => x.booking_id == bid) = some b from h)
      simpa using hb0
    have hnoc : ¬ b.end_time < ne := not_lt_of_le hle
    refine ⟨{ s with bookings :=
        (s.bookings.map (fun x => if x.booking_id == bid then
          { x with gpu_id := x.gpu_id, end_time := ne } else x)) }, ?_, ?_⟩
    · simp only [update_booking, h, hcan, Bool.false_eq_true, if_false, hnoc,
        Option.getD_some, Option.getD_none, Except.ok.injEq]
    · show (s.bookings.map (fun x => if x.booking_id == bid then
          { x with gpu_id := x.gpu_id, end_time := ne } else x)).find?
            (fun x => x.booking_id == bid) = _
      rw [find?_map_of_pred_comm _ _ _ (by
        intro a
        by_cases ha : a.booking_id = bid <;> simp [ha])]
      rw [show s.bookings.find? (fun x => x.booking_id == bid) = some b from h]
      simp [hbid]

/-- Witness for c7_update_checks at concrete states: shrinking booking 1's
end time in s1 succeeds without any conflict consideration, and extending
booking 1's end time in s2 past booking 2 does not conflict across
resources, while an unknown booking id fails with 404. -/
theorem c7_witness :
    update_booking s1 7 none none = .error ⟨404, "Booking not found or already cancelled"⟩
    ∧ ∃ s', update_booking s1 1 none (some 200) = .ok s'
        ∧ findBooking s' 1 = some ⟨1, 1, 1, 100, 200, false, none⟩ := by
  refine ⟨c7_update_checks.1 s1 7 none none (by decide), ?_⟩
  exact c7_update_checks.2.2.2.2.2.2 s1 1 200 ⟨1, 1, 1, 100, 300, false, none⟩
    (by decide) (by decide) (by decide)

/-- C9: when the resource exists and no usage record of it lies in the
report window, the usage report returns a report with zero total duration
(and the instance's stored telemetry fields); the aggregation is total on
the empty record set — the handler contains no division at all. -/
theorem c9_report_empty_window :
    ∀ (s : State) (gid ws : Nat) (g : GPU_instance),
      findGpu s gid = some g →
      (∀ u ∈ s.usages, u.gpu_id ≠ gid ∨ u.start_time < ws) →
      gpu_usage_report s gid ws =
        .ok ⟨gid, 0, g.utilization_percentage, g.peak_memory_usage, g.average_load⟩ := by
  intro s gid ws g hg hu
  have hfilter : s.usages.filter (fun u =>
      decide (u.gpu_id = gid) && decide (ws ≤ u.start_time)) = [] := by
    rw [List.filter_eq_nil_iff]
    intro u hmem
    rcases hu u hmem with hne | hlt
    · simp [hne]
    · simp [Nat.not_le_of_lt hlt]
  simp [gpu_usage_report, hfilter, hg]

/-- Witness for c9_report_empty_window at the empty base state s0: the
report for gpu 1 is all-zero and raises nothing. -/
theorem c9_witness :
    gpu_usage_report s0 1 0 = .ok ⟨1, 0, none, none, none⟩ := by
  exact c9_report_empty_window s0 1 0 (freshGpu 1 "gpu-0") (by decide) (by decide)

/-- C10: stop has no guard against repetition: for a usage record whose end
time is already set, stop succeeds again, overwrites the end time with the
current clock, and sets the referenced instance's status to AVAILABLE
whatever its current status was (no hypothesis on the instance's status is
needed). -/
theorem c10_stop_unguarded :
    ∀ (s : State) (uid now t : Nat) (u : GPU_usage),
      findUsage s uid = some u → u.end_time = some t →
      ∃ s', stop_gpu_usage s uid now = .ok s'
        ∧ findUsage s' uid = some { u with end_time := some now }
        ∧ (∀ g, findGpu s u.gpu_id = some g →
            findGpu s' u.gpu_id = some { g with status := GPU_status.available }) := by
  intro s uid now t u hfind _hstopped
  have hfind' : s.usages.find? (fun x => x.usage_id == uid) = some u := hfind
  have huid : u.usage_id = uid := by
    have h0 := List.find?_some hfind'
    simpa using h0
  refine ⟨setGpuStatus { s with usages :=
      (s.usages.map (fun x => if x.usage_id == uid then
        { x with end_time := some now } else x)) }
    u.gpu_id GPU_status.available, ?_, ?_, ?_⟩
  · simp [stop_gpu_usage, hfind]
  · show (s.usages.map (fun x => if x.usage_id == uid then
        { x with end_time := some now } else x)).find?
          (fun x => x.usage_id == uid) = _
    rw [find?_map_of_pred_comm _ _ _ (by
      intro a
      by_cases ha : a.usage_id = uid <;> simp [ha])]
    rw [hfind']
    simp [huid]
  · intro g hg
    have hg' : s.gpus.find? (fun x => x.id == u.gpu_id) = some g := hg
    have hgid : g.id = u.gpu_id := by
      have hg0 := List.find?_some hg'
      simpa using hg0
    show (s.gpus.map (fun x => if x.id == u.gpu_id then
        { x with status := GPU_status.available } else x)).find?
          (fun x => x.id == u.gpu_id) = _
    rw [find?_map_of_pred_comm _ _ _ (by
      intro a
      by_cases ha : a.id = u.gpu_id <;> simp [ha])]
    rw [hg']
    simp [hgid]

/-- Witness for c10_stop_unguarded at the concrete state ws1, whose usage
record 1 already ended at 250 and whose gpu 1 is in MAINTENANCE: the second
stop succeeds, the end time becomes 260 and gpu 1 turns AVAILABLE. -/
theorem c10_witness :
    (stop_gpu_usage ws1 1 260).isOk = true := by
  obtain ⟨s', h1, _, _⟩ := c10_stop_unguarded ws1 1 260 250
    ⟨1, 1, 1, 100, some 250, some 0⟩ (by decide) (by decide)
  rw [h1]
  rfl

end GpuCloud
